import Mathlib

/-!
Verification of the `RegressionModel` class defined in `Lesson.ipynb`.

The source is a Python/pandas/numpy/scipy implementation of OLS and logistic
regression.  It is embedded shallowly as follows:

* float arithmetic is embedded as exact rational arithmetic (`ℚ`); the
  transcendental library routines the source calls (`np.sqrt`, `np.exp`,
  `np.log`, `scipy.stats.t.sf` and the standard normal CDF `Φ`) are abstract
  function parameters, since no claim depends on their numerical values;
* the design matrix handed to the estimators is a Mathlib `Matrix` over `ℚ`
  together with the list of column names, mirroring how `ols_regression` and
  `logistic_regression` read `self.x` as an `n × k` numeric array with named
  columns;
* `np.linalg.solve` / `np.linalg.inv` are the exact rational inverse via the
  adjugate; the `LinAlgError` numpy raises on a singular matrix is modelled by
  the explicit determinant guard at the call site in each estimator;
* `scipy.optimize.minimize` is an external iterative routine; its report is
  modelled as an oracle value `OptimResult` (the solution vector `x` and the
  `success` flag) that `logistic_regression` receives, exactly as the source
  receives the object returned by `minimize`.  The source reads only `minim.x`
  and never `minim.success`;
* the pandas `DataFrame`/index behaviour used by `__init__`/`add_intercept`
  is embedded by `DataFrame` below: an integer row index plus named columns
  whose entries are `Option ℚ` (`none` models a missing value / NaN);
* Python `raise` is embedded as `Except`; `dict`s built by insertion in column
  order are embedded as association lists in the same order.
-/

open Matrix

/-- The result object returned by `scipy.optimize.minimize`, restricted to the
two attributes the estimation code can observe: the candidate minimiser `x`
and the convergence flag `success`. -/
structure OptimResult (k : ℕ) where
  x : Fin k → ℚ
  success : Bool

/-- Errors actually raised inside the embedded numeric estimators and the
`fit_model` dispatcher: `np.linalg.solve` / `np.linalg.inv` raise `LinAlgError`
on a singular matrix, and `fit_model` raises `RuntimeError` on an unrecognised
regression type. -/
inductive NumErr where
  | singularMatrix
  | wrongRegressionInput
  deriving DecidableEq

/-- Exact rational model of `np.linalg.inv A`: the inverse via the adjugate.
Callers guard with a determinant test, mirroring numpy's `LinAlgError`. -/
def np_inv {k : ℕ} (A : Matrix (Fin k) (Fin k) ℚ) : Matrix (Fin k) (Fin k) ℚ :=
  A.det⁻¹ • A.adjugate

/-- Exact rational model of `np.linalg.solve A B`: the solution `Z` of
`A · Z = B`.  Callers guard with a determinant test, mirroring numpy's
`LinAlgError`. -/
def np_solve {k : ℕ} (A B : Matrix (Fin k) (Fin k) ℚ) : Matrix (Fin k) (Fin k) ℚ :=
  np_inv A * B

/-- Modelled from the spec: `scipy.stats.norm.sf`, the standard normal survival
function `1 - Φ`, parameterised by the standard normal CDF `Φ`. -/
def norm_sf (Phi : ℚ → ℚ) (t : ℚ) : ℚ :=
  1 - Phi t

/-- One entry of the `results` dictionary built by `ols_regression`:
`{'coefficient': _, 'standard_error': _, 't_stat': _, 'p_value': _}`. -/
structure OLSRec where
  coefficient : ℚ
  standard_error : ℚ
  t_stat : ℚ
  p_value : ℚ
  deriving DecidableEq

/-- One entry of the `results` dictionary built by `logistic_regression`:
`{'coefficient': _, 'standard_error': _, 'z_stat': _, 'p_value': _}`. -/
structure LogitRec where
  coefficient : ℚ
  standard_error : ℚ
  z_stat : ℚ
  p_value : ℚ
  deriving DecidableEq

/-! ### OLS estimator (`RegressionModel.ols_regression`) -/

variable {n k : ℕ}

/-- `beta = np.dot(np.linalg.solve(x.T.dot(x), np.eye(k)), x.T.dot(y))`:
solve `(XᵀX)·Z = I` for `Z`, then form `Z·(Xᵀy)`. -/
def ols_beta (X : Matrix (Fin n) (Fin k) ℚ) (y : Fin n → ℚ) : Fin k → ℚ :=
  np_solve (Xᵀ * X) 1 *ᵥ (Xᵀ *ᵥ y)

/-- `eps = y - x.dot(beta)`. -/
def ols_eps (X : Matrix (Fin n) (Fin k) ℚ) (y : Fin n → ℚ) : Fin n → ℚ :=
  fun i => y i - (X *ᵥ ols_beta X y) i

/-- `shat = eps.T.dot(eps)/(n-k)`.  The source performs no `n ≤ k` check: for
`n = k` this divides by zero (NaN/inf in float arithmetic; under the `ℚ`
division-by-zero convention the quotient is `0`). -/
def ols_shat (X : Matrix (Fin n) (Fin k) ℚ) (y : Fin n → ℚ) : ℚ :=
  (∑ i, ols_eps X y i * ols_eps X y i) / ((n : ℚ) - (k : ℚ))

/-- `covar = shat * np.linalg.solve(x.T.dot(x), np.eye(k))`. -/
def ols_covar (X : Matrix (Fin n) (Fin k) ℚ) (y : Fin n → ℚ) :
    Matrix (Fin k) (Fin k) ℚ :=
  ols_shat X y • np_solve (Xᵀ * X) 1

/-- `var = np.diag(covar)` followed by `serror = [np.sqrt(i) for i in var]`,
with `sq` the abstract square root. -/
def ols_serror (sq : ℚ → ℚ) (X : Matrix (Fin n) (Fin k) ℚ) (y : Fin n → ℚ) :
    Fin k → ℚ :=
  fun j => sq (Matrix.diag (ols_covar X y) j)

/-- `tstat = [i[1]/serror[i[0]] for i in enumerate(beta)]`. -/
def ols_tstat (sq : ℚ → ℚ) (X : Matrix (Fin n) (Fin k) ℚ) (y : Fin n → ℚ) :
    Fin k → ℚ :=
  fun j => ols_beta X y j / ols_serror sq X y j

/-- `pval = stat.t.sf(tstat, n-k)`, with `tSf` the abstract upper-tail
(one-sided survival) function of the Student-t distribution, taking the
degrees of freedom `n - k` as its second argument. -/
def ols_pval (sq : ℚ → ℚ) (tSf : ℚ → ℤ → ℚ) (X : Matrix (Fin n) (Fin k) ℚ)
    (y : Fin n → ℚ) : Fin k → ℚ :=
  fun j => tSf (ols_tstat sq X y j) ((n : ℤ) - (k : ℤ))

/-- The record stored for the `j`-th column by `ols_regression`. -/
def ols_record (sq : ℚ → ℚ) (tSf : ℚ → ℤ → ℚ) (X : Matrix (Fin n) (Fin k) ℚ)
    (y : Fin n → ℚ) (j : Fin k) : OLSRec :=
  ⟨ols_beta X y j, ols_serror sq X y j, ols_tstat sq X y j, ols_pval sq tSf X y j⟩

/-- `self.results`: one record per column of `self.x`, inserted in column
order (`for i in enumerate(self.x.columns)`). -/
def ols_results_list (sq : ℚ → ℚ) (tSf : ℚ → ℤ → ℚ) (names : Fin k → String)
    (X : Matrix (Fin n) (Fin k) ℚ) (y : Fin n → ℚ) : List (String × OLSRec) :=
  (List.finRange k).map fun j => (names j, ols_record sq tSf X y j)

/-- `RegressionModel.ols_regression`.  The determinant guard models the
`LinAlgError` that `np.linalg.solve(x.T.dot(x), np.eye(k))` raises when
`XᵀX` is singular; otherwise the method runs to completion and stores the
results dictionary.  No other exception is raised on this path. -/
def ols_regression (sq : ℚ → ℚ) (tSf : ℚ → ℤ → ℚ) (names : Fin k → String)
    (X : Matrix (Fin n) (Fin k) ℚ) (y : Fin n → ℚ) :
    Except NumErr (List (String × OLSRec)) :=
  if (Xᵀ * X).det = 0 then .error .singularMatrix
  else .ok (ols_results_list sq tSf names X y)

/-! ### Logistic estimator (`RegressionModel.logistic_regression`) -/

/-- The inner `logistic_function(x, beta)`: `1 / (1 + np.exp(-x.dot(beta)))`,
with `e` the abstract exponential, applied row-wise. -/
def logistic_function (e : ℚ → ℚ) (X : Matrix (Fin n) (Fin k) ℚ)
    (beta : Fin k → ℚ) : Fin n → ℚ :=
  fun i => 1 / (1 + e (-(X *ᵥ beta) i))

/-- The sigmoid in the form used inside `log_likelihood` and `gradient`:
`p = np.exp(t) / (1 + np.exp(t))`. -/
def sigmoid_frac (e : ℚ → ℚ) (t : ℚ) : ℚ :=
  e t / (1 + e t)

/-- The inner `log_likelihood(beta)` of `logistic_regression` (note: the
source returns `-tll`, the NEGATIVE log-likelihood), with `lg` the abstract
logarithm. -/
def log_likelihood (e lg : ℚ → ℚ) (X : Matrix (Fin n) (Fin k) ℚ)
    (y : Fin n → ℚ) (beta : Fin k → ℚ) : ℚ :=
  -(∑ i, (y i * lg (sigmoid_frac e ((X *ᵥ beta) i)) +
      (1 - y i) * lg (1 - sigmoid_frac e ((X *ᵥ beta) i))))

/-- The inner `gradient(beta)` of `logistic_regression`: the gradient of the
negative log-likelihood, `-(Σᵢ xᵢ·(yᵢ - pᵢ))`. -/
def gradient_nll (e : ℚ → ℚ) (X : Matrix (Fin n) (Fin k) ℚ) (y : Fin n → ℚ)
    (beta : Fin k → ℚ) : Fin k → ℚ :=
  fun j => -(∑ i, X i j * (y i - sigmoid_frac e ((X *ᵥ beta) i)))

/-- `p = logistic_function(x, beta)` evaluated after the optimizer returns. -/
def logit_p (e : ℚ → ℚ) (X : Matrix (Fin n) (Fin k) ℚ) (beta : Fin k → ℚ) :
    Fin n → ℚ :=
  logistic_function e X beta

/-- `sigmahat2 = n * np.mean(p * (1 - p))`. -/
def logit_sigmahat2 (e : ℚ → ℚ) (X : Matrix (Fin n) (Fin k) ℚ)
    (beta : Fin k → ℚ) : ℚ :=
  (n : ℚ) * ((∑ i, logit_p e X beta i * (1 - logit_p e X beta i)) / (n : ℚ))

/-- `covmatrix = sigmahat2 * np.linalg.inv(x.T @ x)`. -/
def logit_covmatrix (e : ℚ → ℚ) (X : Matrix (Fin n) (Fin k) ℚ)
    (beta : Fin k → ℚ) : Matrix (Fin k) (Fin k) ℚ :=
  logit_sigmahat2 e X beta • np_inv (Xᵀ * X)

/-- `sigmahat = np.sqrt(covmatrix)` (element-wise square root of the FULL
covariance matrix) followed by `se = np.diag(sigmahat)`. -/
def logit_se (e sq : ℚ → ℚ) (X : Matrix (Fin n) (Fin k) ℚ)
    (beta : Fin k → ℚ) : Fin k → ℚ :=
  fun j => Matrix.diag ((logit_covmatrix e X beta).map sq) j

/-- `zstat = beta / se`. -/
def logit_zstat (e sq : ℚ → ℚ) (X : Matrix (Fin n) (Fin k) ℚ)
    (beta : Fin k → ℚ) : Fin k → ℚ :=
  fun j => beta j / logit_se e sq X beta j

/-- `pvals = 2 * (stat.norm.sf(np.abs(zstat)))`. -/
def logit_pvals (e sq Phi : ℚ → ℚ) (X : Matrix (Fin n) (Fin k) ℚ)
    (beta : Fin k → ℚ) : Fin k → ℚ :=
  fun j => 2 * norm_sf Phi |logit_zstat e sq X beta j|

/-- The record stored for the `j`-th column by `logistic_regression`. -/
def logit_record (e sq Phi : ℚ → ℚ) (X : Matrix (Fin n) (Fin k) ℚ)
    (beta : Fin k → ℚ) (j : Fin k) : LogitRec :=
  ⟨beta j, logit_se e sq X beta j, logit_zstat e sq X beta j,
    logit_pvals e sq Phi X beta j⟩

/-- The `results` dictionary built by `logistic_regression`, in column
order. -/
def logit_results_list (e sq Phi : ℚ → ℚ) (names : Fin k → String)
    (X : Matrix (Fin n) (Fin k) ℚ) (beta : Fin k → ℚ) :
    List (String × LogitRec) :=
  (List.finRange k).map fun j => (names j, logit_record e sq Phi X beta j)

/-- `RegressionModel.logistic_regression`.  `minim` is the report returned by
`scipy.optimize.minimize(log_likelihood, beta, jac=gradient)`; the source
executes `beta = minim.x` and never consults `minim.success`, so neither does
the embedding.  The determinant guard models the `LinAlgError` raised by
`np.linalg.inv(x.T @ x)` on a singular matrix; otherwise the method runs to
completion. -/
def logistic_regression (e sq Phi : ℚ → ℚ) (minim : OptimResult k)
    (names : Fin k → String) (X : Matrix (Fin n) (Fin k) ℚ)
    (y : Fin n → ℚ) : Except NumErr (List (String × LogitRec)) :=
  let beta := minim.x
  if (Xᵀ * X).det = 0 then .error .singularMatrix
  else .ok (logit_results_list e sq Phi names X beta)

/-! ### Fit dispatcher (`RegressionModel.fit_model`) -/

/-- The `self.results` attribute after a fit: an OLS or a logistic results
dictionary. -/
inductive FitResults where
  | ols (l : List (String × OLSRec))
  | logit (l : List (String × LogitRec))

/-- The numeric state of a `RegressionModel` as seen by `fit_model`: the
stored design matrix `self.x` (as the `n × k` numeric array with its column
names), `self.y`, `self.regression_type`, and the `self.results` attribute
(`none` before any fit). -/
structure ModelState (n k : ℕ) where
  x : Matrix (Fin n) (Fin k) ℚ
  names : Fin k → String
  y : Fin n → ℚ
  regression_type : String
  results : Option FitResults

/-- `RegressionModel.fit_model`: dispatch on `self.regression_type`, run the
estimator, and rebind `self.results` to the freshly built dictionary. -/
def fit_model (sq : ℚ → ℚ) (tSf : ℚ → ℤ → ℚ) (e Phi : ℚ → ℚ)
    (minim : OptimResult k) (m : ModelState n k) :
    Except NumErr (ModelState n k) :=
  if m.regression_type = "ols" then
    (ols_regression sq tSf m.names m.x m.y).map fun r =>
      { m with results := some (.ols r) }
  else if m.regression_type = "logit" then
    (logistic_regression e sq Phi minim m.names m.x m.y).map fun r =>
      { m with results := some (.logit r) }
  else .error .wrongRegressionInput

/-! ### DataFrame layer (`__init__` and `add_intercept`) -/

/-- A pandas `DataFrame` as used by the source: an integer row index (the
default index of an `n`-row frame is `0, …, n-1`) and named columns in order;
a `none` entry models NaN. -/
structure DataFrame where
  idx : List ℤ
  cols : List (String × List (Option ℚ))
  deriving DecidableEq

/-- `np.shape(self.x)[0]`: the number of rows of the frame. -/
def DataFrame.nrows (f : DataFrame) : ℕ :=
  f.idx.length

/-- The column values produced by aligning `pd.Series([1]*n)` (which carries
the default index `0, …, n-1`) to the frame index: a row whose label lies in
`[0, n)` receives `1`, any other row receives NaN. -/
def interceptValues (n : ℕ) (idx : List ℤ) : List (Option ℚ) :=
  idx.map fun l => if 0 ≤ l ∧ l < (n : ℤ) then some 1 else none

/-- `DataFrame.assign(name=v)`: replace the column if the name already exists,
otherwise append it as the last column. -/
def assignCol (cols : List (String × List (Option ℚ))) (name : String)
    (v : List (Option ℚ)) : List (String × List (Option ℚ)) :=
  if cols.any fun c => c.1 = name then
    cols.map fun c => if c.1 = name then (name, v) else c
  else cols ++ [(name, v)]

/-- `RegressionModel.add_intercept`:
`self.x = self.x.assign(intercept=pd.Series([1]*np.shape(self.x)[0]))`. -/
def add_intercept (f : DataFrame) : DataFrame :=
  { f with cols := assignCol f.cols "intercept" (interceptValues f.nrows f.idx) }

/-- The `RuntimeError` raised by `__init__` when `regression_type` is neither
`"ols"` nor `"logit"`.  The `isinstance` failures of `__init__` reject values
of the wrong Python type and are unrepresentable in this typed embedding. -/
inductive InitErr where
  | unsupportedRegressionType
  deriving DecidableEq

/-- The attributes a successfully constructed `RegressionModel` stores. -/
structure RegressionModel where
  x : DataFrame
  y : List ℚ
  create_intercept : Bool
  regression_type : String
  deriving DecidableEq

/-- `RegressionModel.__init__`: store `x` and `y` (type checks only — the
source compares no shapes), run `add_intercept` when `create_intercept` is
true, and reject any `regression_type` other than `"ols"`/`"logit"`. -/
def RegressionModel.init (x : DataFrame) (y : List ℚ) (create_intercept : Bool)
    (regression_type : String) : Except InitErr RegressionModel :=
  let x' := if create_intercept then add_intercept x else x
  if regression_type = "ols" ∨ regression_type = "logit" then
    .ok ⟨x', y, create_intercept, regression_type⟩
  else .error .unsupportedRegressionType

/-! ### Helper lemmas -/

/-- Over the field `ℚ`, the adjugate-based `np_inv` agrees with Mathlib's
matrix inverse. -/
theorem np_inv_eq_inv (A : Matrix (Fin k) (Fin k) ℚ) : np_inv A = A⁻¹ := by
  rw [np_inv, Matrix.inv_def, Ring.inverse_eq_inv]

/-! ### Claim C1 -/

/-- Claim C1: on a well-posed OLS dataset (`n > k` observations, `XᵀX`
nonsingular) the fit succeeds, the coefficients stored in the results records
are `ols_beta`, this coefficient vector satisfies the normal equations
`XᵀXβ = Xᵀy` exactly (hence within any numerical tolerance), and it is
computed by solving `(XᵀX)·Z = I` for `Z` and then forming `Z·(Xᵀy)`. -/
theorem ols_normal_equations (sq : ℚ → ℚ) (tSf : ℚ → ℤ → ℚ)
    (names : Fin k → String) (X : Matrix (Fin n) (Fin k) ℚ) (y : Fin n → ℚ)
    (hwp : k < n) (hd : (Xᵀ * X).det ≠ 0) :
    ols_regression sq tSf names X y = .ok (ols_results_list sq tSf names X y) ∧
    (∀ j, (ols_record sq tSf X y j).coefficient = ols_beta X y j) ∧
    (Xᵀ * X) *ᵥ ols_beta X y = Xᵀ *ᵥ y ∧
    ols_beta X y = np_solve (Xᵀ * X) 1 *ᵥ (Xᵀ *ᵥ y) := by
  refine ⟨by simp [ols_regression, hd], fun j => rfl, ?_, rfl⟩
  have hu : IsUnit (Xᵀ * X).det := isUnit_iff_ne_zero.mpr hd
  calc (Xᵀ * X) *ᵥ ols_beta X y
      = ((Xᵀ * X) * ((Xᵀ * X)⁻¹ * 1)) *ᵥ (Xᵀ *ᵥ y) := by
        rw [ols_beta, np_solve, np_inv_eq_inv, Matrix.mulVec_mulVec]
    _ = Xᵀ *ᵥ y := by
        rw [Matrix.mul_one, Matrix.mul_nonsing_inv _ hu, Matrix.one_mulVec]

/-- Concrete design matrix for the C1 witness: two observations of the single
feature `x`, values `1` and `2`. -/
def Xc1 : Matrix (Fin 2) (Fin 1) ℚ := fun i _ => if i = 0 then 1 else 2

/-- Concrete response for the C1 witness: `y = (1, 2)`. -/
def yc1 : Fin 2 → ℚ := fun i => if i = 0 then 1 else 2

/-- Witness for C1 at the concrete dataset `X = [[1],[2]]`, `y = [1,2]`. -/
theorem ols_normal_equations_witness :
    ((1 : ℕ) < 2 ∧ (Xc1ᵀ * Xc1).det ≠ 0) ∧
    (ols_regression id (fun a _ => a) (fun _ => "x") Xc1 yc1 =
        .ok (ols_results_list id (fun a _ => a) (fun _ => "x") Xc1 yc1) ∧
      (∀ j, (ols_record id (fun a _ => a) Xc1 yc1 j).coefficient =
        ols_beta Xc1 yc1 j) ∧
      (Xc1ᵀ * Xc1) *ᵥ ols_beta Xc1 yc1 = Xc1ᵀ *ᵥ yc1 ∧
      ols_beta Xc1 yc1 = np_solve (Xc1ᵀ * Xc1) 1 *ᵥ (Xc1ᵀ *ᵥ yc1)) :=
  ⟨⟨by norm_num,
    by simp [Xc1, Matrix.det_fin_one, Matrix.mul_apply, Fin.sum_univ_two]; norm_num⟩,
   ols_normal_equations id (fun a _ => a) (fun _ => "x") Xc1 yc1 (by norm_num)
     (by simp [Xc1, Matrix.det_fin_one, Matrix.mul_apply, Fin.sum_univ_two]; norm_num)⟩

/-! ### Claim C2 -/

/-- Claim C2: after the optimizer returns `β = minim.x`, a logistic fit with
nonsingular `XᵀX` succeeds, and each stored record is built from the fitted
probabilities `p̂ᵢ = σ(xᵢ·β) = 1/(1 + exp(-xᵢ·β))`, the scalar dispersion
`σ̂² = n · mean(p̂(1-p̂))`, the covariance matrix `σ̂² · (XᵀX)⁻¹`, standard
errors read off the diagonal of the element-wise square root of that full
matrix, `z_stat_j = β_j / se_j`, and `p_value_j = 2·(1 - Φ(|z_stat_j|))`. -/
theorem logistic_postfit_formulas (e sq Phi : ℚ → ℚ) (minim : OptimResult k)
    (names : Fin k → String) (X : Matrix (Fin n) (Fin k) ℚ) (y : Fin n → ℚ)
    (hd : (Xᵀ * X).det ≠ 0) :
    logistic_regression e sq Phi minim names X y =
      .ok (logit_results_list e sq Phi names X minim.x) ∧
    ∀ j : Fin k,
      (logit_record e sq Phi X minim.x j).coefficient = minim.x j ∧
      (∀ i, logit_p e X minim.x i = 1 / (1 + e (-(∑ t, X i t * minim.x t)))) ∧
      logit_sigmahat2 e X minim.x =
        (n : ℚ) * ((∑ i, logit_p e X minim.x i * (1 - logit_p e X minim.x i)) / (n : ℚ)) ∧
      logit_covmatrix e X minim.x = logit_sigmahat2 e X minim.x • (Xᵀ * X)⁻¹ ∧
      (logit_record e sq Phi X minim.x j).standard_error =
        Matrix.diag ((logit_covmatrix e X minim.x).map sq) j ∧
      (logit_record e sq Phi X minim.x j).z_stat =
        minim.x j / (logit_record e sq Phi X minim.x j).standard_error ∧
      (logit_record e sq Phi X minim.x j).p_value =
        2 * (1 - Phi |(logit_record e sq Phi X minim.x j).z_stat|) := by
  refine ⟨by simp [logistic_regression, hd], fun j => ?_⟩
  refine ⟨rfl, fun i => ?_, rfl, ?_, rfl, rfl, rfl⟩
  · simp [logit_p, logistic_function, Matrix.mulVec, dotProduct]
  · rw [logit_covmatrix, np_inv_eq_inv]

/-- Concrete design matrix for the C2 witness. -/
def Xc2 : Matrix (Fin 1) (Fin 1) ℚ := fun _ _ => 1

/-- Concrete response for the C2 witness. -/
def yc2 : Fin 1 → ℚ := fun _ => 1

/-- Witness for C2 at the concrete dataset `X = [[1]]`, `y = [1]` with the
optimizer report `x = [1], success = true`. -/
theorem logistic_postfit_formulas_witness :
    (Xc2ᵀ * Xc2).det ≠ 0 ∧
    (logistic_regression id id id ⟨fun _ => 1, true⟩ (fun _ => "x") Xc2 yc2 =
      .ok (logit_results_list id id id (fun _ => "x") Xc2
        (OptimResult.mk (fun _ => 1) true).x) ∧
    ∀ j : Fin 1,
      (logit_record id id id Xc2 (OptimResult.mk (fun _ => 1) true).x j).coefficient =
        (OptimResult.mk (fun _ => (1 : ℚ)) true).x j ∧
      (∀ i, logit_p id Xc2 (OptimResult.mk (fun _ => 1) true).x i =
        1 / (1 + id (-(∑ t, Xc2 i t * (OptimResult.mk (fun _ => (1 : ℚ)) true).x t)))) ∧
      logit_sigmahat2 id Xc2 (OptimResult.mk (fun _ => 1) true).x =
        (1 : ℚ) * ((∑ i, logit_p id Xc2 (OptimResult.mk (fun _ => 1) true).x i *
          (1 - logit_p id Xc2 (OptimResult.mk (fun _ => 1) true).x i)) / (1 : ℚ)) ∧
      logit_covmatrix id Xc2 (OptimResult.mk (fun _ => 1) true).x =
        logit_sigmahat2 id Xc2 (OptimResult.mk (fun _ => 1) true).x • (Xc2ᵀ * Xc2)⁻¹ ∧
      (logit_record id id id Xc2 (OptimResult.mk (fun _ => 1) true).x j).standard_error =
        Matrix.diag ((logit_covmatrix id Xc2 (OptimResult.mk (fun _ => 1) true).x).map id) j ∧
      (logit_record id id id Xc2 (OptimResult.mk (fun _ => 1) true).x j).z_stat =
        (OptimResult.mk (fun _ => (1 : ℚ)) true).x j /
          (logit_record id id id Xc2 (OptimResult.mk (fun _ => 1) true).x j).standard_error ∧
      (logit_record id id id Xc2 (OptimResult.mk (fun _ => 1) true).x j).p_value =
        2 * (1 - id |(logit_record id id id Xc2 (OptimResult.mk (fun _ => 1) true).x j).z_stat|)) :=
  ⟨by simp [Xc2, Matrix.det_fin_one, Matrix.mul_apply],
   logistic_postfit_formulas id id id ⟨fun _ => 1, true⟩ (fun _ => "x") Xc2 yc2
     (by simp [Xc2, Matrix.det_fin_one, Matrix.mul_apply])⟩

/-! ### Claim C7 -/

/-- Claim C7: in an OLS fit the reported `p_value_j` is the one-sided
upper-tail probability of the Student-t distribution with `n - k` degrees of
freedom evaluated at `t_stat_j` — the survival function `tSf` is applied once
to the signed statistic (no doubling, no absolute value), which is not the
conventional two-sided convention. -/
theorem ols_pvalue_one_sided_upper_tail (sq : ℚ → ℚ) (tSf : ℚ → ℤ → ℚ)
    (names : Fin k → String) (X : Matrix (Fin n) (Fin k) ℚ) (y : Fin n → ℚ)
    (hd : (Xᵀ * X).det ≠ 0) :
    ols_regression sq tSf names X y = .ok (ols_results_list sq tSf names X y) ∧
    ∀ j : Fin k,
      (ols_record sq tSf X y j).t_stat =
        (ols_record sq tSf X y j).coefficient /
          (ols_record sq tSf X y j).standard_error ∧
      (ols_record sq tSf X y j).p_value =
        tSf ((ols_record sq tSf X y j).t_stat) ((n : ℤ) - (k : ℤ)) :=
  ⟨by simp [ols_regression, hd], fun j => ⟨rfl, rfl⟩⟩

/-- Concrete design matrix for the C7 witness. -/
def Xc7 : Matrix (Fin 2) (Fin 1) ℚ := fun i _ => if i = 0 then 1 else 3

/-- Concrete response for the C7 witness. -/
def yc7 : Fin 2 → ℚ := fun i => if i = 0 then 2 else 5

/-- Witness for C7 at the concrete dataset `X = [[1],[3]]`, `y = [2,5]`. -/
theorem ols_pvalue_one_sided_upper_tail_witness :
    (Xc7ᵀ * Xc7).det ≠ 0 ∧
    (ols_regression id (fun a _ => a) (fun _ => "x") Xc7 yc7 =
      .ok (ols_results_list id (fun a _ => a) (fun _ => "x") Xc7 yc7) ∧
    ∀ j : Fin 1,
      (ols_record id (fun a _ => a) Xc7 yc7 j).t_stat =
        (ols_record id (fun a _ => a) Xc7 yc7 j).coefficient /
          (ols_record id (fun a _ => a) Xc7 yc7 j).standard_error ∧
      (ols_record id (fun a _ => a) Xc7 yc7 j).p_value =
        (fun a (_ : ℤ) => a) ((ols_record id (fun a _ => a) Xc7 yc7 j).t_stat)
          ((2 : ℤ) - (1 : ℤ))) :=
  ⟨by simp [Xc7, Matrix.det_fin_one, Matrix.mul_apply, Fin.sum_univ_two]; norm_num,
   ols_pvalue_one_sided_upper_tail id (fun a _ => a) (fun _ => "x") Xc7 yc7
     (by simp [Xc7, Matrix.det_fin_one, Matrix.mul_apply, Fin.sum_univ_two]; norm_num)⟩

/-! ### Claim C3 -/

/-- Concrete design matrix for C3: a single observation of a single feature,
so `n = k = 1`. -/
def Xc3 : Matrix (Fin 1) (Fin 1) ℚ := fun _ _ => 2

/-- Concrete response for C3. -/
def yc3 : Fin 1 → ℚ := fun _ => 3

/-- Claim C3 (refuting evaluation): fitting OLS with `n = k = 1` on
`X = [[2]]`, `y = [3]` raises no error at all — `ols_regression` divides
`εᵀε` by `n - k = 0` and returns a results record (in float arithmetic the
variance is NaN; under the exact-arithmetic division-by-zero convention it is
literally the spurious zero-variance record below), instead of failing with
a `DegenerateModelError` as the claim requires. -/
theorem ols_degenerate_no_error :
    ols_regression id (fun a _ => a) (fun _ => "x") Xc3 yc3 =
      .ok [("x", ⟨3/2, 0, 0, 0⟩)] := by
  have hd : (Xc3ᵀ * Xc3).det = 4 := by
    simp [Xc3, Matrix.det_fin_one, Matrix.mul_apply]; norm_num
  have hbeta : ols_beta Xc3 yc3 = fun _ => 3/2 := by
    funext j
    have hj : j = (0 : Fin 1) := Subsingleton.elim _ _
    subst hj
    simp [ols_beta, np_solve, np_inv, hd, Xc3, yc3, Matrix.adjugate_fin_one,
      Matrix.mulVec, dotProduct, Matrix.mul_apply, Matrix.one_apply_eq]
    norm_num
  have heps : ols_eps Xc3 yc3 = fun _ => 0 := by
    funext i
    simp [ols_eps, hbeta, Xc3, yc3, Matrix.mulVec, dotProduct]
    norm_num
  have hshat : ols_shat Xc3 yc3 = 0 := by
    simp [ols_shat, heps]
  have hcovar : ols_covar Xc3 yc3 = 0 := by
    simp [ols_covar, hshat]
  rw [ols_regression, if_neg (by rw [hd]; norm_num)]
  have hrec : ols_record id (fun a _ => a) Xc3 yc3 0 = ⟨3/2, 0, 0, 0⟩ := by
    simp [ols_record, ols_serror, ols_tstat, ols_pval, hbeta, hcovar]
  simp [ols_results_list, hrec, List.finRange]

/-! ### Claim C4 -/

/-- Concrete design matrix for C4. -/
def Xc4 : Matrix (Fin 1) (Fin 1) ℚ := fun _ _ => 1

/-- Concrete response for C4. -/
def yc4 : Fin 1 → ℚ := fun _ => 0

/-- Claim C4 (refuting evaluation): when the optimizer report carries
`success = false`, `logistic_regression` still returns an `ok` results
dictionary built from the unconverged `β = minim.x` — the source assigns
`beta = minim.x` and never reads `minim.success` — and the gradient of the
negative log-likelihood at the returned `β` is not zero, so no
`ConvergenceError` is surfaced and no gradient-norm guarantee holds.
(Instantiation: `X = [[1]]`, `y = [0]`, report `x = [5]`, `success = false`,
with `exp` instantiated to the constant function `1`, `sqrt` and `Φ` to
`id`.) -/
theorem logistic_ignores_convergence_failure :
    (OptimResult.mk (fun _ : Fin 1 => (5 : ℚ)) false).success = false ∧
    logistic_regression (fun _ => 1) id id ⟨fun _ => 5, false⟩ (fun _ => "x")
        Xc4 yc4 =
      .ok [("x", ⟨5, 1/4, 20, -38⟩)] ∧
    gradient_nll (fun _ => 1) Xc4 yc4 (fun _ => 5) ≠ fun _ => 0 := by
  refine ⟨rfl, ?_, ?_⟩
  · have hd : (Xc4ᵀ * Xc4).det = 1 := by
      simp [Xc4, Matrix.det_fin_one, Matrix.mul_apply]
    have hp : logit_p (fun _ => 1) Xc4 (fun _ => 5) = fun _ => 1/2 := by
      funext i
      simp [logit_p, logistic_function, Xc4, Matrix.mulVec, dotProduct]
      norm_num
    have hs2 : logit_sigmahat2 (fun _ => 1) Xc4 (fun _ => 5) = 1/4 := by
      simp [logit_sigmahat2, hp]
      norm_num
    have hinv : np_inv (Xc4ᵀ * Xc4) = 1 := by
      rw [np_inv, hd, Matrix.adjugate_fin_one]
      norm_num
    have hcov : logit_covmatrix (fun _ => 1) Xc4 (fun _ => 5) = (1/4 : ℚ) • 1 := by
      rw [logit_covmatrix, hs2, hinv]
    have hse : logit_se (fun _ => 1) id Xc4 (fun _ => 5) = fun _ => 1/4 := by
      funext j
      simp [logit_se, hcov, Matrix.diag, Matrix.one_apply]
    have hrec :
        logit_record (fun _ => 1) id id Xc4 (fun _ => 5) 0 = ⟨5, 1/4, 20, -38⟩ := by
      simp [logit_record, logit_zstat, logit_pvals, norm_sf, hse]
      norm_num
    rw [logistic_regression]
    rw [if_neg (by rw [hd]; norm_num)]
    simp [logit_results_list, hrec, List.finRange]
  · intro h
    have h0 := congrFun h 0
    simp [gradient_nll, sigmoid_frac, Xc4, yc4, Matrix.mulVec, dotProduct] at h0

/-! ### Claim C9 -/

/-- The model state produced by a successful OLS `fit_model` call: the input
state with `self.results` rebound to the freshly built OLS dictionary. -/
def ols_fitted (sq : ℚ → ℚ) (tSf : ℚ → ℤ → ℚ) (m : ModelState n k) :
    ModelState n k :=
  { m with results := some (.ols (ols_results_list sq tSf m.names m.x m.y)) }

/-- Claim C9: on an OLS model with nonsingular `XᵀX`, `fit_model` succeeds and
stores a results dictionary computed solely from the stored dataset; calling
`fit_model` again on the fitted model returns exactly the same fitted model
(identical results), and whatever `results` attribute the model currently
holds, a call to `fit_model` replaces it wholesale with the same freshly built
dictionary (overwrite, not merge). -/
theorem fit_model_refit_overwrites (sq : ℚ → ℚ) (tSf : ℚ → ℤ → ℚ)
    (e Phi : ℚ → ℚ) (minim : OptimResult k) (m : ModelState n k)
    (hty : m.regression_type = "ols") (hd : (m.xᵀ * m.x).det ≠ 0) :
    fit_model sq tSf e Phi minim m = .ok (ols_fitted sq tSf m) ∧
    fit_model sq tSf e Phi minim (ols_fitted sq tSf m) =
      .ok (ols_fitted sq tSf m) ∧
    ∀ r₀ : Option FitResults,
      fit_model sq tSf e Phi minim { m with results := r₀ } =
        .ok (ols_fitted sq tSf m) := by
  have key : ∀ r₀ : Option FitResults,
      fit_model sq tSf e Phi minim { m with results := r₀ } =
        .ok (ols_fitted sq tSf m) := by
    intro r₀
    simp [fit_model, hty, ols_regression, hd, Except.map, ols_fitted]
  exact ⟨key m.results, key _, key⟩

/-- Concrete model state for the C9 witness. -/
def mc9 : ModelState 1 1 :=
  ⟨fun _ _ => 2, fun _ => "x", fun _ => 3, "ols", none⟩

/-- Witness for C9 at a concrete one-observation OLS model. -/
theorem fit_model_refit_overwrites_witness :
    (mc9.regression_type = "ols" ∧ (mc9.xᵀ * mc9.x).det ≠ 0) ∧
    (fit_model id (fun a _ => a) id id ⟨fun _ => 1, true⟩ mc9 =
      .ok (ols_fitted id (fun a _ => a) mc9) ∧
    fit_model id (fun a _ => a) id id ⟨fun _ => 1, true⟩
        (ols_fitted id (fun a _ => a) mc9) =
      .ok (ols_fitted id (fun a _ => a) mc9) ∧
    ∀ r₀ : Option FitResults,
      fit_model id (fun a _ => a) id id ⟨fun _ => 1, true⟩
          { mc9 with results := r₀ } =
        .ok (ols_fitted id (fun a _ => a) mc9)) :=
  ⟨⟨rfl, by simp [mc9, Matrix.det_fin_one, Matrix.mul_apply]⟩,
   fit_model_refit_overwrites id (fun a _ => a) id id ⟨fun _ => 1, true⟩ mc9 rfl
     (by simp [mc9, Matrix.det_fin_one, Matrix.mul_apply])⟩

/-! ### Claim C5 -/

/-- Claim C5 (refuting evaluation): constructing a `RegressionModel` from an
`X` table with 2 rows and a `y` vector with 3 entries succeeds — `__init__`
checks only the Python types of its arguments and the `regression_type`
string, it never compares row counts, so no `ShapeMismatch` failure occurs at
construction. -/
theorem init_accepts_row_mismatch :
    RegressionModel.init ⟨[0, 1], [("a", [some 1, some 2])]⟩ [1, 2, 3] true
        "ols" =
      .ok ⟨⟨[0, 1], [("a", [some 1, some 2]), ("intercept", [some 1, some 1])]⟩,
        [1, 2, 3], true, "ols"⟩ ∧
    (⟨[0, 1], [("a", [some 1, some 2])]⟩ : DataFrame).nrows ≠
      ([1, 2, 3] : List ℚ).length := by
  exact ⟨rfl, by decide⟩

/-- Claim C5 (amended): `__init__` performs no row-count comparison at all —
for every `X` table and `y` vector (matching row counts or not), construction
with a recognised `regression_type` succeeds, storing the (optionally
intercept-augmented) table and `y` unchanged. -/
theorem init_no_shape_check (x : DataFrame) (y : List ℚ) (ci : Bool)
    (rt : String) (hrt : rt = "ols" ∨ rt = "logit") :
    RegressionModel.init x y ci rt =
      .ok ⟨if ci then add_intercept x else x, y, ci, rt⟩ := by
  simp only [RegressionModel.init]
  rw [if_pos hrt]

/-- Witness for the amended C5 at a concrete mismatched pair: `X` has one
row, `y` has two entries, and construction succeeds. -/
theorem init_no_shape_check_witness :
    ("ols" = "ols" ∨ "ols" = "logit") ∧
    RegressionModel.init ⟨[0], [("a", [some 4])]⟩ [1, 2] true "ols" =
      .ok ⟨if true then add_intercept ⟨[0], [("a", [some 4])]⟩
        else ⟨[0], [("a", [some 4])]⟩, [1, 2], true, "ols"⟩ :=
  ⟨Or.inl rfl,
   init_no_shape_check ⟨[0], [("a", [some 4])]⟩ [1, 2] true "ols" (Or.inl rfl)⟩

/-! ### Claims C8 and C10: the intercept column -/

/-- Helper: `DataFrame.assign` appends the new column when no existing column
carries the assigned name. -/
theorem assignCol_fresh (cols : List (String × List (Option ℚ)))
    (name : String) (v : List (Option ℚ)) (h : ∀ c ∈ cols, c.1 ≠ name) :
    assignCol cols name v = cols ++ [(name, v)] := by
  rw [assignCol, if_neg]
  intro hc
  rw [List.any_eq_true] at hc
  obtain ⟨c, hmem, hcr⟩ := hc
  exact h c hmem (by simpa using hcr)

/-- Helper: aligning the all-ones series with default index `0, …, n-1` to
the default index itself yields an all-ones column. -/
theorem interceptValues_range (n : ℕ) :
    interceptValues n ((List.range n).map Int.ofNat) =
      List.replicate n (some 1) := by
  rw [interceptValues, List.map_map]
  rw [List.eq_replicate_iff]
  refine ⟨by simp, ?_⟩
  intro b hb
  rw [List.mem_map] at hb
  obtain ⟨a, ha, hab⟩ := hb
  rw [List.mem_range] at ha
  rw [← hab]
  simp only [Function.comp]
  rw [if_pos]
  exact ⟨Int.ofNat_nonneg a, by rw [Int.ofNat_eq_coe]; exact_mod_cast ha⟩

/-- Claim C8 (refuting evaluation): for an `X` table whose row label `5` lies
outside the default range, the appended `intercept` column is `[NaN]`, not a
column of ones — the design matrix does not consist of the original columns
plus an all-ones intercept column. -/
theorem add_intercept_not_all_ones :
    add_intercept ⟨[5], [("a", [some 2])]⟩ =
      ⟨[5], [("a", [some 2]), ("intercept", [none])]⟩ ∧
    [(none : Option ℚ)] ≠
      List.replicate (⟨[5], [("a", [some 2])]⟩ : DataFrame).nrows
        (some (1 : ℚ)) := by
  exact ⟨rfl, by decide⟩

/-- Claim C8 (amended): when the intercept flag is true and `x`'s row index is
the default `0, …, n-1` (and no original column is already named
`"intercept"`), the design matrix is the original named columns in their
original order with one additional all-ones column named `"intercept"`
appended; and for both model families a successful fit returns exactly one
record per design-matrix column — `k` entries keyed by column name in
design-matrix column order. -/
theorem design_matrix_and_results_shape (f : DataFrame)
    (hidx : f.idx = (List.range f.nrows).map Int.ofNat)
    (hnc : ∀ c ∈ f.cols, c.1 ≠ "intercept") :
    (add_intercept f).cols =
      f.cols ++ [("intercept", List.replicate f.nrows (some 1))] ∧
    (add_intercept f).idx = f.idx ∧
    (∀ (n k : ℕ) (sq : ℚ → ℚ) (tSf : ℚ → ℤ → ℚ) (names : Fin k → String)
        (X : Matrix (Fin n) (Fin k) ℚ) (y : Fin n → ℚ)
        (r : List (String × OLSRec)),
        ols_regression sq tSf names X y = .ok r →
        r.length = k ∧ r.map Prod.fst = (List.finRange k).map names) ∧
    (∀ (n k : ℕ) (e sq Phi : ℚ → ℚ) (minim : OptimResult k)
        (names : Fin k → String) (X : Matrix (Fin n) (Fin k) ℚ)
        (y : Fin n → ℚ) (r : List (String × LogitRec)),
        logistic_regression e sq Phi minim names X y = .ok r →
        r.length = k ∧ r.map Prod.fst = (List.finRange k).map names) := by
  refine ⟨?_, rfl, ?_, ?_⟩
  · show assignCol f.cols "intercept" (interceptValues f.nrows f.idx) = _
    rw [assignCol_fresh _ _ _ hnc, hidx, interceptValues_range]
  · intro n k sq tSf names X y r h
    rw [ols_regression] at h
    split_ifs at h
    injection h with h
    subst h
    refine ⟨by simp [ols_results_list], ?_⟩
    simp [ols_results_list, List.map_map, Function.comp]
  · intro n k e sq Phi minim names X y r h
    rw [logistic_regression] at h
    split_ifs at h
    injection h with h
    subst h
    refine ⟨by simp [logit_results_list], ?_⟩
    simp [logit_results_list, List.map_map, Function.comp]

/-- Witness for the amended C8 at the concrete table with default index
`[0, 1]` and single column `"a"`. -/
theorem design_matrix_and_results_shape_witness :
    ((⟨[0, 1], [("a", [some 1, some 2])]⟩ : DataFrame).idx =
        (List.range (⟨[0, 1], [("a", [some 1, some 2])]⟩ : DataFrame).nrows).map
          Int.ofNat ∧
      ∀ c ∈ (⟨[0, 1], [("a", [some 1, some 2])]⟩ : DataFrame).cols,
        c.1 ≠ "intercept") ∧
    ((add_intercept ⟨[0, 1], [("a", [some 1, some 2])]⟩).cols =
      (⟨[0, 1], [("a", [some 1, some 2])]⟩ : DataFrame).cols ++
        [("intercept",
          List.replicate (⟨[0, 1], [("a", [some 1, some 2])]⟩ : DataFrame).nrows
            (some 1))] ∧
    (add_intercept ⟨[0, 1], [("a", [some 1, some 2])]⟩).idx =
      (⟨[0, 1], [("a", [some 1, some 2])]⟩ : DataFrame).idx ∧
    (∀ (n k : ℕ) (sq : ℚ → ℚ) (tSf : ℚ → ℤ → ℚ) (names : Fin k → String)
        (X : Matrix (Fin n) (Fin k) ℚ) (y : Fin n → ℚ)
        (r : List (String × OLSRec)),
        ols_regression sq tSf names X y = .ok r →
        r.length = k ∧ r.map Prod.fst = (List.finRange k).map names) ∧
    (∀ (n k : ℕ) (e sq Phi : ℚ → ℚ) (minim : OptimResult k)
        (names : Fin k → String) (X : Matrix (Fin n) (Fin k) ℚ)
        (y : Fin n → ℚ) (r : List (String × LogitRec)),
        logistic_regression e sq Phi minim names X y = .ok r →
        r.length = k ∧ r.map Prod.fst = (List.finRange k).map names)) :=
  ⟨⟨by decide, by decide⟩,
   design_matrix_and_results_shape ⟨[0, 1], [("a", [some 1, some 2])]⟩
     (by decide) (by decide)⟩

/-- Claim C10 (refuting evaluation): for an `X` table whose index is the
permutation `[1, 0]` of the default range — so NOT exactly `0, …, n-1` — the
appended intercept column is nevertheless all ones, refuting the "all ones
only when the index is exactly `0..n-1`" direction of the claim. -/
theorem intercept_all_ones_despite_permuted_index :
    add_intercept ⟨[1, 0], [("a", [some 2, some 3])]⟩ =
      ⟨[1, 0], [("a", [some 2, some 3]), ("intercept", [some 1, some 1])]⟩ ∧
    [some (1 : ℚ), some 1] =
      List.replicate (⟨[1, 0], [("a", [some 2, some 3])]⟩ : DataFrame).nrows
        (some (1 : ℚ)) ∧
    (⟨[1, 0], [("a", [some 2, some 3])]⟩ : DataFrame).idx ≠
      (List.range (⟨[1, 0], [("a", [some 2, some 3])]⟩ : DataFrame).nrows).map
        Int.ofNat := by
  exact ⟨rfl, rfl, by decide⟩

/-- Claim C10 (amended): the intercept column is built by aligning
`pd.Series([1]*n)` (default index `0, …, n-1`) to `x`'s row index, so it is
all ones exactly when every label of `x`'s index lies in `{0, …, n-1}`; any
row whose label falls outside that range receives a missing value (NaN) in
the `"intercept"` column; and construction with `create_intercept = true`
raises no error on such input — the NaN-bearing design matrix is stored in
the model, which is what a later fit consumes. -/
theorem intercept_alignment (f : DataFrame) (y : List ℚ) (rt : String)
    (hrt : rt = "ols" ∨ rt = "logit")
    (hnc : ∀ c ∈ f.cols, c.1 ≠ "intercept") :
    (add_intercept f).cols =
      f.cols ++ [("intercept", interceptValues f.nrows f.idx)] ∧
    (interceptValues f.nrows f.idx = List.replicate f.nrows (some 1) ↔
      ∀ l ∈ f.idx, 0 ≤ l ∧ l < (f.nrows : ℤ)) ∧
    (∀ (i : ℕ) (l : ℤ), f.idx.get? i = some l →
      ¬(0 ≤ l ∧ l < (f.nrows : ℤ)) →
      (interceptValues f.nrows f.idx).get? i = some none) ∧
    RegressionModel.init f y true rt = .ok ⟨add_intercept f, y, true, rt⟩ := by
  refine ⟨?_, ⟨?_, ?_⟩, ?_, ?_⟩
  · show assignCol f.cols "intercept" (interceptValues f.nrows f.idx) = _
    rw [assignCol_fresh _ _ _ hnc]
  · intro he l hl
    by_contra hn
    have hmem : (if 0 ≤ l ∧ l < (f.nrows : ℤ) then some (1 : ℚ) else none) ∈
        List.replicate f.nrows (some (1 : ℚ)) := by
      rw [← he, interceptValues]
      exact List.mem_map_of_mem _ hl
    rw [if_neg hn] at hmem
    simpa using List.eq_of_mem_replicate hmem
  · intro hall
    rw [interceptValues, List.eq_replicate_iff]
    refine ⟨by simp [DataFrame.nrows], ?_⟩
    intro b hb
    rw [List.mem_map] at hb
    obtain ⟨l, hl, hlb⟩ := hb
    rw [← hlb, if_pos (hall l hl)]
  · intro i l hgl hout
    rw [interceptValues, List.get?_map, hgl]
    simp [if_neg hout]
  · simp only [RegressionModel.init]
    rw [if_pos hrt]
    simp

/-- Witness for the amended C10 at the concrete table with index `[0, 7]`:
label `7` lies outside `{0, 1}`, so its row receives NaN, and construction
still succeeds. -/
theorem intercept_alignment_witness :
    (("ols" = "ols" ∨ "ols" = "logit") ∧
      ∀ c ∈ (⟨[0, 7], [("a", [some 1, some 2])]⟩ : DataFrame).cols,
        c.1 ≠ "intercept") ∧
    ((add_intercept ⟨[0, 7], [("a", [some 1, some 2])]⟩).cols =
      (⟨[0, 7], [("a", [some 1, some 2])]⟩ : DataFrame).cols ++
        [("intercept",
          interceptValues (⟨[0, 7], [("a", [some 1, some 2])]⟩ : DataFrame).nrows
            (⟨[0, 7], [("a", [some 1, some 2])]⟩ : DataFrame).idx)] ∧
    (interceptValues (⟨[0, 7], [("a", [some 1, some 2])]⟩ : DataFrame).nrows
        (⟨[0, 7], [("a", [some 1, some 2])]⟩ : DataFrame).idx =
      List.replicate (⟨[0, 7], [("a", [some 1, some 2])]⟩ : DataFrame).nrows
        (some 1) ↔
      ∀ l ∈ (⟨[0, 7], [("a", [some 1, some 2])]⟩ : DataFrame).idx,
        0 ≤ l ∧ l < ((⟨[0, 7], [("a", [some 1, some 2])]⟩ : DataFrame).nrows : ℤ)) ∧
    (∀ (i : ℕ) (l : ℤ),
      (⟨[0, 7], [("a", [some 1, some 2])]⟩ : DataFrame).idx.get? i = some l →
      ¬(0 ≤ l ∧ l < ((⟨[0, 7], [("a", [some 1, some 2])]⟩ : DataFrame).nrows : ℤ)) →
      (interceptValues (⟨[0, 7], [("a", [some 1, some 2])]⟩ : DataFrame).nrows
        (⟨[0, 7], [("a", [some 1, some 2])]⟩ : DataFrame).idx).get? i =
        some none) ∧
    RegressionModel.init ⟨[0, 7], [("a", [some 1, some 2])]⟩ [1, 2] true "ols" =
      .ok ⟨add_intercept ⟨[0, 7], [("a", [some 1, some 2])]⟩, [1, 2], true,
        "ols"⟩) :=
  ⟨⟨Or.inl rfl, by decide⟩,
   intercept_alignment ⟨[0, 7], [("a", [some 1, some 2])]⟩ [1, 2] "ols"
     (Or.inl rfl) (by decide)⟩
